import Mathlib

/-!
Verification of the transaction-commit interception contract of the
geode native client binding (`ITransactionWriter`).

The only source artifact is the header
`src/geode-client-native/src/clicache/ITransactionWriter.hpp`, which declares
the managed interface `ITransactionWriter` with the single method
`void BeforeCommit(TransactionEvent^ te)`, the whole declaration guarded by
`#ifdef CSTX_COMMENTED`.  The commit orchestrator that the interface plugs
into is not part of the sources, so its behaviour is modelled from the
specification; the declaration-level facts (preprocessor guard, method
signature) are embedded directly from the header.
-/

namespace GeodeTxWriter

/-- Kind of an individual cache mutation recorded in a transaction. -/
inductive OpKind
  | insert
  | update
  | destroy
deriving DecidableEq, Repr

/-- Modelled from the spec: one operation entry of a TransactionEvent carries
the target region identifier, the key, the operation kind, and the new value
(`none` for a destroy). -/
structure Operation where
  region : String
  key : String
  kind : OpKind
  value : Option String
deriving DecidableEq, Repr

/-- Modelled from the spec: the immutable snapshot passed to the writer at
commit time.  `serial` is the construction tag: the orchestrator constructs a
TransactionEvent exactly once per commit attempt, each with a fresh serial,
so distinct attempts yield distinct events.  `transactionId` is the opaque
transaction identifier and `operations` the ordered sequence of recorded
mutations, in the order they were issued. -/
structure TransactionEvent where
  serial : Nat
  transactionId : Nat
  operations : List Operation
deriving DecidableEq, Repr

/-- Per-transaction lifecycle states of the spec's state machine. -/
inductive TxState
  | Active
  | Committing
  | Committed
  | RolledBack
deriving DecidableEq, Repr

/-- Modelled from the spec: a transaction accumulates an ordered sequence of
cache operations and carries its lifecycle state. -/
structure Transaction where
  id : Nat
  ops : List Operation
  state : TxState
deriving DecidableEq, Repr

/-- An exception raised by a writer (the spec treats any raised error as a
rejection signal); modelled by its diagnostic message. -/
abbrev WriterExn := String

/-- A conforming writer implementation of the declared
`void BeforeCommit(TransactionEvent^)`: since the method returns `void`, a
call either returns normally (`Except.ok ()`) or raises an exception
(`Except.error e`). -/
abbrev Writer := TransactionEvent → Except WriterExn Unit

/-- Cache state: an association list from (region, key) to the stored value. -/
abbrev Cache := List ((String × String) × String)

/-- Remove an entry from the cache. -/
def cacheRemove (c : Cache) (rk : String × String) : Cache :=
  c.filter (fun p => p.1 ≠ rk)

/-- Insert or overwrite an entry in the cache. -/
def cachePut (c : Cache) (rk : String × String) (v : String) : Cache :=
  (rk, v) :: cacheRemove c rk

/-- Apply one recorded operation to the cache: insert/update store the new
value, destroy removes the entry. -/
def applyOp (c : Cache) (op : Operation) : Cache :=
  match op.kind, op.value with
  | OpKind.destroy, _ => cacheRemove c (op.region, op.key)
  | _, some v => cachePut c (op.region, op.key) v
  | _, none => c

/-- Modelled from the spec: the TransactionEvent constructed for one commit
attempt of a transaction — the fresh serial, the transaction's id, and its
recorded operations in issue order. -/
def mkEvent (serial : Nat) (tx : Transaction) : TransactionEvent :=
  { serial := serial, transactionId := tx.id, operations := tx.ops }

/-- Modelled from the spec: invoking the writer is read-only with respect to
the cache — the invocation yields the writer's outcome together with the
cache, unchanged.  The writer cannot mutate cache state from within the
hook. -/
def invokeWriter (w : Writer) (c : Cache) (ev : TransactionEvent) :
    Except WriterExn Unit × Cache :=
  (w ev, c)

/-- Result of one commit attempt as surfaced to the caller. -/
inductive CommitResult
  | success
  | commitRejected (e : WriterExn)
  | invalidState
deriving DecidableEq, Repr

/-- Everything one commit attempt produces: the cache after the attempt, the
transaction in its final state, the result surfaced to the caller, the
TransactionEvents delivered to the writer (in delivery order), and the next
fresh event serial. -/
structure CommitOutcome where
  cache : Cache
  tx : Transaction
  result : CommitResult
  writerCalls : List TransactionEvent
  nextSerial : Nat
deriving DecidableEq, Repr

/-- Modelled from the spec: the commit orchestrator's single commit attempt
(the orchestrator itself is not in the sources).  A commit is requested on an
`Active` transaction; a transaction with zero operations is never submitted
to commit and therefore never reaches the writer.  Otherwise the transaction
moves to `Committing`, a fresh TransactionEvent is constructed immediately
before the writer is invoked, and the registered writer (if any) is invoked
exactly once: a normal return applies the recorded operations in issue order
and the transaction becomes `Committed`; an exception leaves the cache
untouched, rolls the transaction back, and surfaces `commitRejected` to the
caller, with no automatic retry of the writer call. -/
def commitAttempt (writer : Option Writer) (c : Cache) (tx : Transaction)
    (serial : Nat) : CommitOutcome :=
  if tx.state = TxState.Active then
    if tx.ops = [] then
      { cache := c, tx := { tx with state := TxState.Committed },
        result := CommitResult.success, writerCalls := [], nextSerial := serial }
    else
      match writer with
      | none =>
        { cache := tx.ops.foldl applyOp c,
          tx := { tx with state := TxState.Committed },
          result := CommitResult.success, writerCalls := [], nextSerial := serial }
      | some w =>
        let ev := mkEvent serial tx
        match invokeWriter w c ev with
        | (Except.ok _, c2) =>
          { cache := tx.ops.foldl applyOp c2,
            tx := { tx with state := TxState.Committed },
            result := CommitResult.success, writerCalls := [ev],
            nextSerial := serial + 1 }
        | (Except.error e, c2) =>
          { cache := c2, tx := { tx with state := TxState.RolledBack },
            result := CommitResult.commitRejected e, writerCalls := [ev],
            nextSerial := serial + 1 }
  else
    { cache := c, tx := tx, result := CommitResult.invalidState,
      writerCalls := [], nextSerial := serial }

/-- Modelled from the spec: a caller-initiated retry after rejection — the
whole transaction is replayed (a fresh `Active` transaction with the replayed
operations) and the writer is invoked again with a new TransactionEvent. -/
def commitWithRetry (writer : Option Writer) (c : Cache) (tx : Transaction)
    (serial : Nat) : CommitOutcome :=
  let o1 := commitAttempt writer c tx serial
  match o1.result with
  | CommitResult.commitRejected _ =>
    let o2 := commitAttempt writer o1.cache { tx with state := TxState.Active }
      o1.nextSerial
    { o2 with writerCalls := o1.writerCalls ++ o2.writerCalls }
  | _ => o1

/-- Modelled from the spec: explicit user rollback of an `Active` transaction
discards its operations without applying them and never invokes the writer
(the second component is the list of writer calls it performs, always
empty). -/
def rollback (tx : Transaction) : Transaction × List TransactionEvent :=
  if tx.state = TxState.Active then
    ({ tx with state := TxState.RolledBack }, [])
  else
    (tx, [])

/-- Modelled from the spec: the per-transaction state machine
`Active -> Committing -> \x7bCommitted | RolledBack\x7d`, with
`Active -> RolledBack` for explicit user rollback and no transitions out of
the terminal states. -/
inductive TxStep : TxState → TxState → Prop
  | beginCommit : TxStep TxState.Active TxState.Committing
  | commitOk : TxStep TxState.Committing TxState.Committed
  | commitFail : TxStep TxState.Committing TxState.RolledBack
  | userRollback : TxStep TxState.Active TxState.RolledBack

/-- A method declaration as it appears in the header: name, declared return
type, parameter types. -/
structure MethodDecl where
  name : String
  returnType : String
  paramTypes : List String
deriving DecidableEq, Repr

/-- Embedded from the source header: the single method declared by
`ITransactionWriter` is `void BeforeCommit(GemStone::GemFire::Cache::TransactionEvent^ te)`. -/
def beforeCommitDecl : MethodDecl :=
  { name := "BeforeCommit", returnType := "void",
    paramTypes := ["GemStone::GemFire::Cache::TransactionEvent^"] }

/-- An interface declaration as it appears in the header. -/
structure InterfaceDecl where
  namespacePath : List String
  name : String
  methods : List MethodDecl
deriving DecidableEq, Repr

/-- Embedded from the source header: the `ITransactionWriter` interface in
namespace `GemStone::GemFire::Cache`, declaring only `BeforeCommit`. -/
def iTransactionWriterDecl : InterfaceDecl :=
  { namespacePath := ["GemStone", "GemFire", "Cache"],
    name := "ITransactionWriter",
    methods := [beforeCommitDecl] }

/-- Embedded from the source header: the declarations the file
`ITransactionWriter.hpp` contributes to a build, as a function of whether the
preprocessor macro `CSTX_COMMENTED` is defined.  The entire body of the file
(lines 8-31) sits between `#ifdef CSTX_COMMENTED` and `#endif`. -/
def fileDeclarations (cstxCommentedDefined : Bool) : List InterfaceDecl :=
  if cstxCommentedDefined then [iTransactionWriterDecl] else []

/-- The two possible outcomes of a writer call under the contract. -/
inductive Outcome
  | accept
  | reject
deriving DecidableEq, Repr

/-- The outcome a `void`-returning `BeforeCommit` call communicates: a normal
return is Accept, a raised exception is Reject — there is no other channel. -/
def outcomeOfCall : Except WriterExn Unit → Outcome
  | Except.ok _ => Outcome.accept
  | Except.error _ => Outcome.reject

/-- A writer that accepts every transaction (returns normally). -/
def acceptAll : Writer := fun _ => Except.ok ()

/-- A writer that rejects every transaction by raising an exception. -/
def rejectAll : Writer := fun _ => Except.error "veto"

/-- A writer that rejects the first attempt (event serial 0) and accepts any
retry. -/
def rejectFirstAttempt : Writer := fun ev =>
  if ev.serial = 0 then Except.error "retry me" else Except.ok ()

/-- Sample operations of the spec's example scenario: two puts on region
"orders", key "A1", in issue order. -/
def sampleOps : List Operation :=
  [ { region := "orders", key := "A1", kind := OpKind.update,
      value := some "shipped" },
    { region := "orders", key := "A1", kind := OpKind.update,
      value := some "cancelled" } ]

/-- A sample active transaction with the two sample operations. -/
def sampleTx : Transaction :=
  { id := 7, ops := sampleOps, state := TxState.Active }

/-- C1: for every transaction, if the registered writer's BeforeCommit on the
attempt's TransactionEvent returns normally (Accept), then every recorded
operation is applied, exactly as recorded and in issue order (a left fold of
`applyOp` over `tx.ops`), the transaction's final state is `Committed`, and
the caller sees success. -/
theorem writer_accept_commits (w : Writer) (c : Cache) (tx : Transaction)
    (serial : Nat) (hA : tx.state = TxState.Active) (hne : tx.ops ≠ [])
    (hok : w (mkEvent serial tx) = Except.ok ()) :
    (commitAttempt (some w) c tx serial).cache = tx.ops.foldl applyOp c ∧
    (commitAttempt (some w) c tx serial).tx.state = TxState.Committed ∧
    (commitAttempt (some w) c tx serial).result = CommitResult.success := by
  simp [commitAttempt, invokeWriter, hA, hne, hok]

/-- Witness for C1 on the spec's example scenario: the accept-all writer lets
the two-operation sample transaction commit. -/
theorem writer_accept_commits_witness :
    (commitAttempt (some acceptAll) [] sampleTx 0).cache
        = sampleTx.ops.foldl applyOp [] ∧
    (commitAttempt (some acceptAll) [] sampleTx 0).tx.state
        = TxState.Committed ∧
    (commitAttempt (some acceptAll) [] sampleTx 0).result
        = CommitResult.success :=
  writer_accept_commits acceptAll [] sampleTx 0 rfl (by decide) rfl

/-- C2: for every transaction submitted to commit, if the registered writer
signals rejection by raising an exception, then no operation is applied (the
cache is unchanged), the final state is `RolledBack`, the caller's commit
surfaces `commitRejected`, and the writer was called exactly once (no
automatic retry). -/
theorem writer_reject_rolls_back (w : Writer) (c : Cache) (tx : Transaction)
    (serial : Nat) (e : WriterExn) (hA : tx.state = TxState.Active)
    (hne : tx.ops ≠ []) (herr : w (mkEvent serial tx) = Except.error e) :
    (commitAttempt (some w) c tx serial).cache = c ∧
    (commitAttempt (some w) c tx serial).tx.state = TxState.RolledBack ∧
    (commitAttempt (some w) c tx serial).result
        = CommitResult.commitRejected e ∧
    (commitAttempt (some w) c tx serial).writerCalls = [mkEvent serial tx] := by
  simp [commitAttempt, invokeWriter, hA, hne, herr]

/-- Witness for C2: the reject-all writer vetoes the sample transaction and
the cache stays empty. -/
theorem writer_reject_rolls_back_witness :
    (commitAttempt (some rejectAll) [] sampleTx 0).cache = [] ∧
    (commitAttempt (some rejectAll) [] sampleTx 0).tx.state
        = TxState.RolledBack ∧
    (commitAttempt (some rejectAll) [] sampleTx 0).result
        = CommitResult.commitRejected "veto" ∧
    (commitAttempt (some rejectAll) [] sampleTx 0).writerCalls
        = [mkEvent 0 sampleTx] :=
  writer_reject_rolls_back rejectAll [] sampleTx 0 "veto" rfl (by decide) rfl

/-- C6: for every active transaction with at least one operation, if no
writer is registered, commit proceeds unconditionally: the operations are
applied, the transaction commits, and the absence of a writer is never
reported as a failure. -/
theorem no_writer_commit_proceeds (c : Cache) (tx : Transaction) (serial : Nat)
    (hA : tx.state = TxState.Active) (hne : tx.ops ≠ []) :
    (commitAttempt none c tx serial).result = CommitResult.success ∧
    (commitAttempt none c tx serial).tx.state = TxState.Committed ∧
    (commitAttempt none c tx serial).cache = tx.ops.foldl applyOp c := by
  simp [commitAttempt, hA, hne]

/-- Witness for C6: the sample transaction commits with no writer
registered. -/
theorem no_writer_commit_proceeds_witness :
    (commitAttempt none [] sampleTx 0).result = CommitResult.success ∧
    (commitAttempt none [] sampleTx 0).tx.state = TxState.Committed ∧
    (commitAttempt none [] sampleTx 0).cache = sampleTx.ops.foldl applyOp [] :=
  no_writer_commit_proceeds [] sampleTx 0 rfl (by decide)

/-- Helper: any event delivered to the writer during a commit attempt is the
event constructed for that attempt, and only nonempty transactions produce
writer calls. -/
theorem mem_writerCalls_eq (writer : Option Writer) (c : Cache)
    (tx : Transaction) (serial : Nat) (ev : TransactionEvent)
    (h : ev ∈ (commitAttempt writer c tx serial).writerCalls) :
    ev = mkEvent serial tx ∧ tx.ops ≠ [] := by
  by_cases hA : tx.state = TxState.Active
  · by_cases hE : tx.ops = []
    · simp [commitAttempt, hA, hE] at h
    · cases writer with
      | none => simp [commitAttempt, hA, hE] at h
      | some w =>
        cases hw : w (mkEvent serial tx) with
        | ok u =>
          simp [commitAttempt, invokeWriter, hA, hE, hw] at h
          exact ⟨h, hE⟩
        | error e =>
          simp [commitAttempt, invokeWriter, hA, hE, hw] at h
          exact ⟨h, hE⟩
  · simp [commitAttempt, hA] at h

/-- C3: for every commit attempt, every TransactionEvent delivered to the
writer carries the transaction's operations exactly as issued, in order — the
writer never observes a reordering. -/
theorem event_operations_in_issue_order (writer : Option Writer) (c : Cache)
    (tx : Transaction) (serial : Nat) (ev : TransactionEvent)
    (h : ev ∈ (commitAttempt writer c tx serial).writerCalls) :
    ev.operations = tx.ops := by
  rcases mem_writerCalls_eq writer c tx serial ev h with ⟨rfl, -⟩
  rfl

/-- Witness for C3: the event delivered for the sample transaction carries its
two operations in issue order. -/
theorem event_operations_in_issue_order_witness :
    (mkEvent 5 sampleTx).operations = sampleTx.ops :=
  event_operations_in_issue_order (some acceptAll) [] sampleTx 5
    (mkEvent 5 sampleTx) (by decide)

/-- C7: every TransactionEvent the writer is invoked with has a non-empty
operations sequence — a transaction with zero operations never reaches the
writer. -/
theorem writer_event_nonempty (writer : Option Writer) (c : Cache)
    (tx : Transaction) (serial : Nat) (ev : TransactionEvent)
    (h : ev ∈ (commitAttempt writer c tx serial).writerCalls) :
    ev.operations ≠ [] := by
  rcases mem_writerCalls_eq writer c tx serial ev h with ⟨rfl, hne⟩
  simpa [mkEvent] using hne

/-- Witness for C7: the event delivered for the sample transaction has a
non-empty operation list. -/
theorem writer_event_nonempty_witness :
    (mkEvent 0 sampleTx).operations ≠ [] :=
  writer_event_nonempty (some rejectAll) [] sampleTx 0
    (mkEvent 0 sampleTx) (by decide)

/-- Helper: a commit attempt on an active transaction ends in one of the two
terminal states. -/
theorem commitAttempt_final_state (writer : Option Writer) (c : Cache)
    (tx : Transaction) (serial : Nat) (hA : tx.state = TxState.Active) :
    (commitAttempt writer c tx serial).tx.state = TxState.Committed ∨
    (commitAttempt writer c tx serial).tx.state = TxState.RolledBack := by
  by_cases hE : tx.ops = []
  · simp [commitAttempt, hA, hE]
  · cases writer with
    | none => simp [commitAttempt, hA, hE]
    | some w =>
      cases hw : w (mkEvent serial tx) with
      | ok u => simp [commitAttempt, invokeWriter, hA, hE, hw]
      | error e => simp [commitAttempt, invokeWriter, hA, hE, hw]

/-- C4: the lifecycle follows
`Active -> Committing -> \x7bCommitted | RolledBack\x7d`: a commit attempt on an
active transaction ends in `Committed` or `RolledBack` and its transitions
`Active -> Committing` and `Committing -> final` are steps of the machine;
explicit user rollback takes `Active` to `RolledBack` without any writer
call; and no step of the machine leaves `Committed` or `RolledBack`. -/
theorem lifecycle_state_machine (writer : Option Writer) (c : Cache)
    (tx : Transaction) (serial : Nat) (hA : tx.state = TxState.Active) :
    ((commitAttempt writer c tx serial).tx.state = TxState.Committed ∨
     (commitAttempt writer c tx serial).tx.state = TxState.RolledBack) ∧
    TxStep TxState.Active TxState.Committing ∧
    TxStep TxState.Committing (commitAttempt writer c tx serial).tx.state ∧
    (rollback tx).1.state = TxState.RolledBack ∧
    (rollback tx).2 = [] ∧
    (∀ s, ¬ TxStep TxState.Committed s) ∧
    (∀ s, ¬ TxStep TxState.RolledBack s) := by
  have hfin := commitAttempt_final_state writer c tx serial hA
  refine ⟨hfin, TxStep.beginCommit, ?_, ?_, ?_, ?_, ?_⟩
  · rcases hfin with hf | hf
    · rw [hf]; exact TxStep.commitOk
    · rw [hf]; exact TxStep.commitFail
  · simp [rollback, hA]
  · simp [rollback, hA]
  · intro s h; nomatch h
  · intro s h; nomatch h

/-- Witness for C4: the lifecycle facts instantiated on the sample
transaction committed with no writer registered. -/
theorem lifecycle_state_machine_witness :
    ((commitAttempt none [] sampleTx 0).tx.state = TxState.Committed ∨
     (commitAttempt none [] sampleTx 0).tx.state = TxState.RolledBack) ∧
    TxStep TxState.Active TxState.Committing ∧
    TxStep TxState.Committing (commitAttempt none [] sampleTx 0).tx.state ∧
    (rollback sampleTx).1.state = TxState.RolledBack ∧
    (rollback sampleTx).2 = [] ∧
    (∀ s, ¬ TxStep TxState.Committed s) ∧
    (∀ s, ¬ TxStep TxState.RolledBack s) :=
  lifecycle_state_machine none [] sampleTx 0 rfl

/-- Helper: constructing the attempt event ignores the transaction's
lifecycle state field. -/
theorem mkEvent_setState (s : Nat) (tx : Transaction) (st : TxState) :
    mkEvent s { tx with state := st } = mkEvent s tx := rfl

/-- C5: with a registered writer, each commit attempt invokes BeforeCommit
exactly once, with exactly the one event constructed for that attempt; and a
rejected-then-retried commit performs two invocations with two distinct
TransactionEvents (the retry constructs a new event). -/
theorem writer_once_per_attempt_retry_distinct (w : Writer) (c : Cache)
    (tx : Transaction) (serial : Nat) (hA : tx.state = TxState.Active)
    (hne : tx.ops ≠ []) :
    (commitAttempt (some w) c tx serial).writerCalls = [mkEvent serial tx] ∧
    (∀ e, w (mkEvent serial tx) = Except.error e →
      (commitWithRetry (some w) c tx serial).writerCalls
          = [mkEvent serial tx, mkEvent (serial + 1) tx] ∧
      mkEvent serial tx ≠ mkEvent (serial + 1) tx) := by
  constructor
  · cases hw : w (mkEvent serial tx) with
    | ok u => simp [commitAttempt, invokeWriter, hA, hne, hw]
    | error e => simp [commitAttempt, invokeWriter, hA, hne, hw]
  · intro e he
    constructor
    · cases hw2 : w (mkEvent (serial + 1) tx) with
      | ok u =>
        simp [commitWithRetry, commitAttempt, invokeWriter, mkEvent_setState,
          hA, hne, he, hw2]
      | error e2 =>
        simp [commitWithRetry, commitAttempt, invokeWriter, mkEvent_setState,
          hA, hne, he, hw2]
    · intro hcontra
      have := congrArg TransactionEvent.serial hcontra
      simp [mkEvent] at this

/-- Witness for C5: a writer that rejects the first attempt and accepts the
retry is invoked once on the first attempt and twice across the retried
commit, with two distinct events. -/
theorem writer_once_per_attempt_retry_distinct_witness :
    (commitAttempt (some rejectFirstAttempt) [] sampleTx 0).writerCalls
        = [mkEvent 0 sampleTx] ∧
    (commitWithRetry (some rejectFirstAttempt) [] sampleTx 0).writerCalls
        = [mkEvent 0 sampleTx, mkEvent 1 sampleTx] ∧
    mkEvent 0 sampleTx ≠ mkEvent 1 sampleTx := by
  have h := writer_once_per_attempt_retry_distinct rejectFirstAttempt []
    sampleTx 0 rfl (by decide)
  exact ⟨h.1, (h.2 "retry me" rfl).1, (h.2 "retry me" rfl).2⟩

/-- C8: invoking the writer leaves the cache unchanged (the invocation is
read-only), and the writer cannot append operations to the transaction it is
approving: after any commit attempt the transaction's recorded operation
sequence is exactly the pre-call sequence, and the resulting cache is either
the pre-call cache (reject) or the fold of the pre-call operations over it
(accept) — never the image of a writer-extended operation list. -/
theorem writer_invocation_readonly (w : Writer) (c : Cache) (tx : Transaction)
    (serial : Nat) (ev : TransactionEvent) :
    (invokeWriter w c ev).2 = c ∧
    (commitAttempt (some w) c tx serial).tx.ops = tx.ops ∧
    ((commitAttempt (some w) c tx serial).cache = tx.ops.foldl applyOp c ∨
     (commitAttempt (some w) c tx serial).cache = c) := by
  refine ⟨rfl, ?_, ?_⟩
  · by_cases hA : tx.state = TxState.Active
    · by_cases hE : tx.ops = []
      · simp [commitAttempt, hA, hE]
      · cases hw : w (mkEvent serial tx) with
        | ok u => simp [commitAttempt, invokeWriter, hA, hE, hw]
        | error e => simp [commitAttempt, invokeWriter, hA, hE, hw]
    · simp [commitAttempt, hA]
  · by_cases hA : tx.state = TxState.Active
    · by_cases hE : tx.ops = []
      · right; simp [commitAttempt, hA, hE]
      · cases hw : w (mkEvent serial tx) with
        | ok u => left; simp [commitAttempt, invokeWriter, hA, hE, hw]
        | error e => right; simp [commitAttempt, invokeWriter, hA, hE, hw]
    · right; simp [commitAttempt, hA]

/-- C9: the entire `ITransactionWriter` declaration is guarded by the
`CSTX_COMMENTED` preprocessor conditional, so a build where the macro is
undefined gets no declarations at all from the file, while a build that
defines it gets exactly the interface declaration. -/
theorem cstx_guard_compiles_out :
    fileDeclarations false = [] ∧
    fileDeclarations true = [iTransactionWriterDecl] := by
  constructor <;> rfl

/-- C10: `BeforeCommit` is declared with return type `void`, so the declared
interface provides no return-value channel for the Accept/Reject outcome: a
call communicates Accept exactly when it returns normally, and Reject exactly
when it raises an exception. -/
theorem beforeCommit_void_no_return_channel :
    beforeCommitDecl.returnType = "void" ∧
    (∀ r : Except WriterExn Unit,
      outcomeOfCall r = Outcome.accept ↔ r = Except.ok ()) ∧
    (∀ r : Except WriterExn Unit,
      outcomeOfCall r = Outcome.reject ↔ ∃ e, r = Except.error e) := by
  refine ⟨rfl, ?_, ?_⟩ <;> intro r <;> cases r <;> simp [outcomeOfCall]

end GeodeTxWriter
